import Mathlib

/-!
Verification development for the asynchronous Manim render-job orchestrator
(`services/manim-renderer/src/app.py`).

The embedding is sequential: the Python service's shared state
(`running_processes`, the Redis client and its key space, the MinIO client)
is modelled as an explicit `SysState` record, and each handler / worker
phase is a pure state transformer translated line by line from the source.
Environmental effects that the source observes (subprocess exit code,
whether an output file was produced, whether the MinIO upload succeeded,
whether a Redis read raises `RedisError`, whether the child dies on
SIGTERM) are passed in as explicit oracle parameters, since the Python
code branches on them but does not compute them.
-/

namespace ManimRenderer

/-- Job status values, as enumerated in the `ProcessStatus` model and the
string literals assigned to `job_info["status"]` throughout `app.py`
(`queued`, `running`, `completed`, `error`, `timeout`, `cancelled`). -/
inductive Status
  | queued
  | running
  | completed
  | error
  | timeout
  | cancelled
deriving DecidableEq, Repr

/-- The string the code uses for a status when it writes one to Redis
(`set_job_status(job_id, "completed")` etc.). -/
def Status.toRedis : Status → String
  | .queued => "queued"
  | .running => "running"
  | .completed => "completed"
  | .error => "error"
  | .timeout => "timeout"
  | .cancelled => "cancelled"

/-- Terminal statuses per the spec: `completed | error | timeout | cancelled`. -/
def Status.isTerminal : Status → Bool
  | .completed => true
  | .error => true
  | .timeout => true
  | .cancelled => true
  | _ => false

/-- Caller-supplied metadata stored in the registry entry at submission
(`running_processes[job_id]["metadata"]` in `render_manim`). -/
structure Metadata where
  user_id : String
  chat_id : String
  classroom_id : String
  subject_id : String
deriving DecidableEq, Repr

/-- One entry of the in-memory job registry `running_processes[job_id]`.
Optional fields model dictionary keys that may be absent; `process` models
the `"process"` key holding the `subprocess.Popen` handle (represented by
its pid). -/
structure JobInfo where
  status : Status
  message : String
  progress : Option Nat := none
  created_at : Nat := 0
  output_file : Option String := none
  error_details : Option String := none
  process : Option Nat := none
  metadata : Metadata
deriving DecidableEq, Repr

/-- Global mutable state of the service: the `running_processes` map
(association list keyed by job id), whether `redis_client` was initialized
(`redis_client is not None`), and the Redis key space (job id → status
string).  Mirror writes are modelled as succeeding whenever the client is
initialized; the source additionally swallows `RedisError` on writes
(best-effort), so in the program a failed write leaves the previous
(possibly stale) value in place — conclusions here about the mirror's
value after a write hold for the writes that succeed. -/
structure SysState where
  registry : List (String × JobInfo)
  redis_up : Bool
  mirror : List (String × String)
deriving DecidableEq, Repr

/-- Fresh state at service start: empty registry, Redis connected, empty
key space. -/
def initState : SysState :=
  { registry := [], redis_up := true, mirror := [] }

/-- `running_processes.get(job_id)`. -/
def lookupJob : List (String × JobInfo) → String → Option JobInfo
  | [], _ => none
  | (k, v) :: rest, j => if k = j then some v else lookupJob rest j

/-- In-place mutation of the entry for `j` (the Python code mutates
`job_info` fields under `process_lock`); absent keys are untouched, which
models the `if job_info:` guard around every such mutation. -/
def updateJob (reg : List (String × JobInfo)) (j : String) (f : JobInfo → JobInfo) :
    List (String × JobInfo) :=
  reg.map fun p => if p.1 = j then (p.1, f p.2) else p

/-- Mutation guarded by `if job_info and job_info.get("status") != "cancelled":`,
the pattern used by every status write in `run_manim_process` except the
initial `running` write. -/
def updateJobNotCancelled (reg : List (String × JobInfo)) (j : String)
    (f : JobInfo → JobInfo) : List (String × JobInfo) :=
  reg.map fun p =>
    if p.1 = j ∧ p.2.status ≠ .cancelled then (p.1, f p.2) else p

/-- Whether the guard `job_info and job_info.get("status") != "cancelled"`
holds for `j` in `reg`. -/
def guardNotCancelled (reg : List (String × JobInfo)) (j : String) : Bool :=
  match lookupJob reg j with
  | some i => i.status ≠ .cancelled
  | none => false

/-- `redis_client.get(job_id)` on the modelled key space. -/
def mirrorGet : List (String × String) → String → Option String
  | [], _ => none
  | (k, v) :: rest, j => if k = j then some v else mirrorGet rest j

/-- `redis_client.set(job_id, status, ex=...)`: idempotent overwrite of the
key. -/
def mirrorSet (m : List (String × String)) (j v : String) : List (String × String) :=
  (j, v) :: m.filter fun p => p.1 ≠ j

/-- `set_job_status(job_id, status)`: no-op when the client was never
initialized, otherwise overwrite the key. -/
def set_job_status (st : SysState) (j s : String) : SysState :=
  if st.redis_up then { st with mirror := mirrorSet st.mirror j s } else st

/-- `delete_job_status(job_id)`. -/
def delete_job_status (st : SysState) (j : String) : SysState :=
  if st.redis_up then { st with mirror := st.mirror.filter fun p => p.1 ≠ j } else st

/-- HTTP-style result: `ok` payload or `HTTPException(status_code, detail)`. -/
inductive Resp (α : Type)
  | ok (a : α)
  | err (code : Nat) (detail : String)
deriving DecidableEq, Repr

/-- Job creation in `render_manim` (the part after validation and scene
extraction): registers the job as `queued` with progress 0 and the caller
metadata, then writes the literal string `"ongoing"` to Redis
(`set_job_status(job_id, "ongoing")`). -/
def submitJob (st : SysState) (j : String) (md : Metadata) (now : Nat) : SysState :=
  let entry : JobInfo :=
    { status := .queued
      message := "Job queued for processing"
      progress := some 0
      created_at := now
      metadata := md }
  let st1 : SysState :=
    { st with registry := (j, entry) :: st.registry.filter fun p => p.1 ≠ j }
  set_job_status st1 j "ongoing"

/-- `cancel_job(job_id)` (DELETE `/job/{job_id}`).  `killOk` tells whether
`os.killpg(..., SIGTERM)` raises (the `except` branch returns a 500).
Returns the new state and the response body message on success.  The
delayed `cleanup_later` eviction thread is modelled separately by
`cancel_cleanup`. -/
def cancel_job (st : SysState) (j : String) (killOk : Bool) :
    Resp (SysState × String) :=
  match lookupJob st.registry j with
  | none => .err 404 "Job not found"
  | some info =>
    if info.status = .running ∧ info.process.isSome then
      if killOk then
        let st1 : SysState :=
          { st with registry := updateJob st.registry j fun i =>
              { i with status := .cancelled, message := "Job cancelled by user" } }
        .ok (set_job_status st1 j "cancelled", "Job cancelled successfully")
      else
        .err 500 "Failed to cancel job"
    else
      let st1 : SysState :=
        { st with registry := updateJob st.registry j fun i =>
            { i with status := .cancelled, message := "Job cancelled by user" } }
      .ok (set_job_status st1 j "cancelled", "Job cancelled successfully")

/-- The `cleanup_later` thread spawned by `cancel_job`: after 60 seconds it
evicts the registry entry and deletes the Redis key. -/
def cancel_cleanup (st : SysState) (j : String) : SysState :=
  delete_job_status { st with registry := st.registry.filter fun p => p.1 ≠ j } j

/-- `upload_to_minio(...)`: returns the object URL on success, `None` when
the client was never initialized or the upload raises (`S3Error` or other).
`minioUp` models `minio_client is not None`, `s3ok` whether `fput_object`
succeeds, `ts` the `int(time.time())` timestamp used in the filename.
URL shape: `MINIO_URL/bucket/{user}/{classroom}/{subject}/{chat}/video_{ts}.{fmt}`
with the environment defaults for `MINIO_URL` and the bucket name. -/
def upload_to_minio (minioUp s3ok : Bool) (ts : Nat) (md : Metadata)
    (fmt : String) : Option String :=
  if minioUp then
    if s3ok then
      some ("http://localhost:9000/sudar-content/" ++ md.user_id ++ "/" ++
        md.classroom_id ++ "/" ++ md.subject_id ++ "/" ++ md.chat_id ++
        "/video_" ++ toString ts ++ "." ++ fmt)
    else none
  else none

/-- Environment-determined outcome of the launched subprocess, observed by
`run_manim_process` after `process.communicate`:
`exited` = `communicate` returned (`rc` the return code, captured stdout and
stderr, `found` whether the output-file glob matched, then the upload
oracles); `timedOut` = `communicate` raised `subprocess.TimeoutExpired`
(`diesOnTerm` = the process group exits within the 5-second grace after
SIGTERM); `raised` = some other exception reached the `except Exception`
handler. -/
inductive ProcOutcome
  | exited (rc : Int) (out err : String) (found minioUp s3ok : Bool) (ts : Nat)
  | timedOut (diesOnTerm : Bool)
  | raised (msg : String)
deriving DecidableEq, Repr

/-- Signals sent to the job's process group. -/
inductive Sig
  | sigterm
  | sigkill
deriving DecidableEq, Repr

/-- What the timeout handler did to the process group and whether the group
is still alive afterwards.  SIGKILL cannot be ignored, so a group that
received it is dead (OS semantics, assumed). -/
structure KillLog where
  signals : List Sig := []
  pgroupAlive : Bool := false
deriving DecidableEq, Repr

/-- `run_manim_process` lines 363-369: the first status write.  Note: it is
guarded only by `if job_info:` — unlike every later write it does NOT check
for a prior `cancelled` status, so it overwrites one. -/
def worker_markRunning (st : SysState) (j : String) : SysState :=
  { st with registry := updateJob st.registry j fun i =>
      { i with status := .running, message := "Starting Manim rendering...",
               progress := some 10 } }

/-- `run_manim_process` lines 398-402: progress update before `Popen`,
guarded by the not-cancelled check (but only the update is skipped — the
function does not return). -/
def worker_preLaunch (st : SysState) (j : String) : SysState :=
  { st with registry := updateJobNotCancelled st.registry j fun i =>
      { i with progress := some 20, message := "Executing Manim command..." } }

/-- `run_manim_process` lines 405-418: `subprocess.Popen` is called
unconditionally and the handle is stored under the `"process"` key. -/
def worker_launch (st : SysState) (j : String) (pid : Nat) : SysState :=
  { st with registry := updateJob st.registry j fun i =>
      { i with process := some pid } }

/-- `run_manim_process` lines 420-514: wait for the subprocess and record
the terminal state.  Translated branch by branch; note which Redis writes
sit inside the `status != "cancelled"` guard (the `completed` and
upload-failure writes) and which sit outside it (the output-not-found,
non-zero-exit, timeout and exception writes, which run even for a job
cancelled mid-flight). -/
def worker_finish (st : SysState) (j : String) (timeoutSec : Nat) (fmt : String)
    (o : ProcOutcome) : SysState × KillLog :=
  match o with
  | .exited rc out err found minioUp s3ok ts =>
    let st1 : SysState :=
      { st with registry := updateJobNotCancelled st.registry j fun i =>
          { i with progress := some 80, message := "Processing output..." } }
    if rc = 0 then
      if found then
        let md : Metadata :=
          match lookupJob st1.registry j with
          | some i => i.metadata
          | none => ⟨"", "", "", ""⟩
        match upload_to_minio minioUp s3ok ts md fmt with
        | some url =>
          let g := guardNotCancelled st1.registry j
          let st2 : SysState :=
            { st1 with registry := updateJobNotCancelled st1.registry j fun i =>
                { i with status := .completed,
                         message := "Rendering completed successfully",
                         progress := some 100, output_file := some url } }
          (if g then set_job_status st2 j "completed" else st2, {})
        | none =>
          let g := guardNotCancelled st1.registry j
          let st2 : SysState :=
            { st1 with registry := updateJobNotCancelled st1.registry j fun i =>
                { i with status := .error,
                         message := "Failed to upload video to storage" } }
          (if g then set_job_status st2 j "error" else st2, {})
      else
        let st2 : SysState :=
          { st1 with registry := updateJobNotCancelled st1.registry j fun i =>
              { i with status := .error, message := "Output file not found",
                       error_details := some ("stdout: " ++ out ++ "\nstderr: " ++
                         err ++ "\nFiles created: []") } }
        (set_job_status st2 j "error", {})
    else
      let st2 : SysState :=
        { st1 with registry := updateJobNotCancelled st1.registry j fun i =>
            { i with status := .error, message := "Manim execution failed",
                     error_details := some ("Return code: " ++ toString rc ++
                       "\nstdout: " ++ out ++ "\nstderr: " ++ err) } }
      (set_job_status st2 j "error", {})
  | .timedOut dies =>
    let klog : KillLog :=
      { signals := if dies then [.sigterm] else [.sigterm, .sigkill]
        pgroupAlive := false }
    let st2 : SysState :=
      { st with registry := updateJobNotCancelled st.registry j fun i =>
          { i with status := .timeout,
                   message := "Process timed out after " ++ toString timeoutSec ++
                     " seconds",
                   error_details := some "Execution exceeded maximum allowed time" } }
    (set_job_status st2 j "timeout", klog)
  | .raised msg =>
    let st2 : SysState :=
      { st with registry := updateJobNotCancelled st.registry j fun i =>
          { i with status := .error, message := "Internal error occurred",
                   error_details := some msg } }
    (set_job_status st2 j "error", {})

/-- `run_manim_process` `finally` block lines 516-524: remove the
`"process"` key (the temp-directory removal and the delayed
`cleanup_metadata` eviction have no footprint in this state model). -/
def worker_cleanup (st : SysState) (j : String) : SysState :=
  { st with registry := updateJob st.registry j fun i => { i with process := none } }

/-- Result of one full worker execution: final state, whether
`subprocess.Popen` was reached, and what the timeout handler did. -/
structure RunResult where
  state : SysState
  launched : Bool
  klog : KillLog
deriving DecidableEq, Repr

/-- The whole of `run_manim_process(job_id, code, scene_name, quality,
format, timeout)` after the code file is written: mark running, progress
update, launch, wait/finish, guaranteed cleanup.  There is no early-return
path before `Popen`, so `launched` is always true. -/
def run_manim_process (st : SysState) (j : String) (pid timeoutSec : Nat)
    (fmt : String) (o : ProcOutcome) : RunResult :=
  let st1 := worker_markRunning st j
  let st2 := worker_preLaunch st1 j
  let st3 := worker_launch st2 j pid
  let r4 := worker_finish st3 j timeoutSec fmt o
  { state := worker_cleanup r4.1 j, launched := true, klog := r4.2 }

/-- The `cleanup_metadata` thread scheduled in the worker's `finally`:
evicts the registry entry after the 10-minute retention period. -/
def evict_job (st : SysState) (j : String) : SysState :=
  { st with registry := st.registry.filter fun p => p.1 ≠ j }

/-- Response payload of GET `/status`: the in-memory snapshot (rich) or the
Redis fallback (job id and raw status string). -/
inductive StatusView
  | rich (status : Status) (message : String) (progress : Option Nat)
      (output_file : Option String) (error_details : Option String)
  | coarse (job_id : String) (status : String)
deriving DecidableEq, Repr

/-- GET `/status?job_id=...` (`get_status`): prefer the in-memory entry;
otherwise 503 when `redis_client` is `None`, otherwise read Redis —
`get_job_status` returns `None` both for a missing key and when the read
raises `RedisError` (modelled by `readFails`), and `None` becomes a 404. -/
def get_status (st : SysState) (j : String) (readFails : Bool) : Resp StatusView :=
  match lookupJob st.registry j with
  | some i => .ok (.rich i.status i.message i.progress i.output_file i.error_details)
  | none =>
    if st.redis_up then
      match (if readFails then none else mirrorGet st.mirror j) with
      | none => .err 404 "Job not found"
      | some s => .ok (.coarse j s)
    else .err 503 "Status store unavailable"

/-- One SSE event emitted by the `generate()` loop of
GET `/status/{job_id}/stream`. -/
inductive StreamEvent
  | storeUnavailable
  | jobNotFound
  | jobCompleted
  | keepAlive
deriving DecidableEq, Repr

/-- One iteration of the stream loop: the event emitted, whether the loop
breaks, and the `asyncio.sleep` duration before the next poll. -/
structure StreamStep where
  event : StreamEvent
  stop : Bool
  sleepSeconds : Nat
deriving DecidableEq, Repr

/-- The body of the `while True:` loop in `stream_status`'s `generate()`,
as a function of the Redis read result: `None` → "Job not found" and break;
`"completed"` → "job completed" and break; anything else → keep-alive
comment and `await asyncio.sleep(1)`. -/
def stream_step (status : Option String) : StreamStep :=
  match status with
  | none => { event := .jobNotFound, stop := true, sleepSeconds := 0 }
  | some s =>
    if s = "completed" then { event := .jobCompleted, stop := true, sleepSeconds := 0 }
    else { event := .keepAlive, stop := false, sleepSeconds := 1 }

/-! ### Code Validator (`_strip_strings_and_comments`, `validate_manim_code`) -/

/-- Tokenizer mode while scanning the submitted code character by
character, mirroring how Python's `tokenize` classifies `STRING` and
`COMMENT` tokens (whose character ranges `_strip_strings_and_comments`
blanks with spaces). `q1`/`q2` count opening quotes (to distinguish
`'x'`, `''` and `'''`), `t1`/`t2` count closing quotes of a triple-quoted
string, `sesc`/`tesc` are the character after a backslash escape. -/
inductive StripMode
  | normal
  | comment
  | q1 (q : Char)
  | q2 (q : Char)
  | sstr (q : Char)
  | sesc (q : Char)
  | tstr (q : Char)
  | tesc (q : Char)
  | t1 (q : Char)
  | t2 (q : Char)
deriving DecidableEq, Repr

/-- Handling of one character outside any string or comment: `#` starts a
comment (blanked), a quote starts a string literal (blanked), everything
else is kept. -/
def stripStepNormal (c : Char) : Char × StripMode :=
  if c = '#' then (' ', .comment)
  else if c = '\'' ∨ c = '"' then (' ', .q1 c)
  else (c, .normal)

/-- Character-level model of `_strip_strings_and_comments`' blanking pass:
every character of a string literal (quotes, contents, and the newlines
inside a triple-quoted string) and of a comment becomes a space; the
newline terminating a comment is kept (it is not part of the `COMMENT`
token).  Returns `none` where `tokenize` raises `TokenError` on an
unterminated string literal, which the source maps to returning the code
unchanged.  (String-prefix literals such as `r"..."`, and `tokenize`
failures unrelated to string literals, are outside this model; the inputs
of the theorems below avoid them.) -/
def stripAux : StripMode → List Char → Option (List Char)
  | .normal, [] => some []
  | .comment, [] => some []
  | .q2 _, [] => some []
  | _, [] => none
  | mode, c :: rest =>
    match mode with
    | .normal =>
      let s := stripStepNormal c
      (stripAux s.2 rest).map (s.1 :: ·)
    | .comment =>
      if c = '\n' then (stripAux .normal rest).map ('\n' :: ·)
      else (stripAux .comment rest).map (' ' :: ·)
    | .q1 q =>
      if c = q then (stripAux (.q2 q) rest).map (' ' :: ·)
      else if c = '\\' then (stripAux (.sesc q) rest).map (' ' :: ·)
      else if c = '\n' then none
      else (stripAux (.sstr q) rest).map (' ' :: ·)
    | .q2 q =>
      if c = q then (stripAux (.tstr q) rest).map (' ' :: ·)
      else
        let s := stripStepNormal c
        (stripAux s.2 rest).map (s.1 :: ·)
    | .sstr q =>
      if c = q then (stripAux .normal rest).map (' ' :: ·)
      else if c = '\\' then (stripAux (.sesc q) rest).map (' ' :: ·)
      else if c = '\n' then none
      else (stripAux (.sstr q) rest).map (' ' :: ·)
    | .sesc q => (stripAux (.sstr q) rest).map (' ' :: ·)
    | .tstr q =>
      if c = q then (stripAux (.t1 q) rest).map (' ' :: ·)
      else if c = '\\' then (stripAux (.tesc q) rest).map (' ' :: ·)
      else (stripAux (.tstr q) rest).map (' ' :: ·)
    | .tesc q => (stripAux (.tstr q) rest).map (' ' :: ·)
    | .t1 q =>
      if c = q then (stripAux (.t2 q) rest).map (' ' :: ·)
      else if c = '\\' then (stripAux (.tesc q) rest).map (' ' :: ·)
      else (stripAux (.tstr q) rest).map (' ' :: ·)
    | .t2 q =>
      if c = q then (stripAux .normal rest).map (' ' :: ·)
      else if c = '\\' then (stripAux (.tesc q) rest).map (' ' :: ·)
      else (stripAux (.tstr q) rest).map (' ' :: ·)

/-- `_strip_strings_and_comments(code)`: blank string literals and
comments; on a tokenize error, fall back to the original code. -/
def strip_strings_and_comments (code : List Char) : List Char :=
  match stripAux .normal code with
  | some out => out
  | none => code

/-- `p.startswith(s)` on character lists. -/
def startsWithCh : List Char → List Char → Bool
  | _, [] => true
  | [], _ :: _ => false
  | c :: cs, p :: ps => c = p && startsWithCh cs ps

/-- Substring test (`s in line` in Python). -/
def containsSub : List Char → List Char → Bool
  | hay, pat =>
    match hay with
    | [] => startsWithCh [] pat
    | _ :: rest => startsWithCh hay pat || containsSub rest pat

/-- Regex word character (`\w`): letters, digits, underscore. -/
def isWordChar (c : Char) : Bool := c.isAlphanum || c = '_'

/-- `re.search(r"\b<pat>\b", hay)`: `pat` occurs with no word character
immediately before or after (all deny-list patterns begin and end with
word characters, and the inner `\.` of `os.system` is an exact match). -/
def searchWordBounded (prev : Option Char) (hay pat : List Char) : Bool :=
  match hay with
  | [] => false
  | c :: rest =>
    ((match prev with
      | none => true
      | some p => !isWordChar p) &&
     startsWithCh hay pat &&
     (match hay.drop pat.length with
      | [] => true
      | d :: _ => !isWordChar d)) ||
    searchWordBounded (some c) rest pat

/-- The `dangerous_patterns` deny list of `validate_manim_code`, in the
source's insertion order (the first match wins). -/
def dangerous_patterns : List (List Char × String) :=
  [("os.system".data, "os.system"),
   ("subprocess".data, "subprocess"),
   ("eval".data, "eval"),
   ("exec".data, "exec"),
   ("open".data, "open"),
   ("__import__".data, "__import__"),
   ("globals".data, "globals"),
   ("locals".data, "locals"),
   ("vars".data, "vars"),
   ("dir".data, "dir"),
   ("getattr".data, "getattr"),
   ("setattr".data, "setattr"),
   ("delattr".data, "delattr"),
   ("hasattr".data, "hasattr")]

/-- The deny-list loop of `validate_manim_code`: label of the first
pattern found in the (already stripped) text. -/
def findDangerous (sanitized : List Char) : Option String :=
  match dangerous_patterns.find? fun p => searchWordBounded none sanitized p.1 with
  | some p => some p.2
  | none => none

/-- `code.split('\n')`. -/
def splitLinesAux : List Char → List Char → List (List Char)
  | [], acc => [acc.reverse]
  | '\n' :: rest, acc => acc.reverse :: splitLinesAux rest []
  | c :: rest, acc => splitLinesAux rest (c :: acc)

/-- `code.split('\n')` from the start. -/
def splitLines (code : List Char) : List (List Char) :=
  splitLinesAux code []

/-- `line.strip()`. -/
def trimCh (l : List Char) : List Char :=
  ((l.dropWhile Char.isWhitespace).reverse.dropWhile Char.isWhitespace).reverse

/-- The look-ahead of the infinite-loop heuristic:
`range(i + 1, min(i + 10, len(lines)))` scans the next (at most 9) lines
for the substrings `break` or `return`. -/
def hasBreakWindow (following : List (List Char)) : Bool :=
  (following.take 9).any fun l =>
    containsSub l "break".data || containsSub l "return".data

/-- The infinite-loop scan of `validate_manim_code`: the first line whose
stripped text starts with `while True:` or `while 1:` and whose look-ahead
window has no `break`/`return` yields (1-based) line number `i + 1`.
NOTE (from the source): this scan runs on `code.split('\n')` — the
ORIGINAL code, not the sanitized text. -/
def findInfLoopAux : List (List Char) → Nat → Option Nat
  | [], _ => none
  | line :: rest, i =>
    let s := trimCh line
    if (startsWithCh s "while True:".data || startsWithCh s "while 1:".data) &&
        !hasBreakWindow rest then
      some (i + 1)
    else findInfLoopAux rest (i + 1)

/-- The infinite-loop scan over all lines of the raw code. -/
def findInfLoop (code : List Char) : Option Nat :=
  findInfLoopAux (splitLines code) 0

/-- `validate_manim_code(code)`: strip strings/comments, scan the stripped
text against the deny list, then scan the RAW code lines for trivially
infinite loops. -/
def validate_manim_code (code : String) : Bool × String :=
  let sanitized := strip_strings_and_comments code.data
  match findDangerous sanitized with
  | some label => (false, "Potentially dangerous code detected: " ++ label)
  | none =>
    match findInfLoop code.data with
    | some n => (false, "Potential infinite loop detected at line " ++ toString n)
    | none => (true, "Code validation passed")

/-! ### Derived notions and helper lemmas -/

/-- The terminal status the sequential worker run assigns for a given
environment outcome (read off the branch structure of `worker_finish`). -/
def expectedTerminal : ProcOutcome → Status
  | .exited rc _ _ found minioUp s3ok _ =>
    if rc = 0 ∧ found = true ∧ minioUp = true ∧ s3ok = true then .completed else .error
  | .timedOut _ => .timeout
  | .raised _ => .error

/-- The state `cancel_job` produces on its success path (both the
running-with-process branch and the else branch build exactly this). -/
def cancelledState (st : SysState) (j : String) : SysState :=
  set_job_status
    { st with registry := updateJob st.registry j fun i =>
        { i with status := .cancelled, message := "Job cancelled by user" } }
    j "cancelled"

theorem lookupJob_updateJob (reg : List (String × JobInfo)) (j : String)
    (f : JobInfo → JobInfo) :
    lookupJob (updateJob reg j f) j = (lookupJob reg j).map f := by
  induction reg with
  | nil => rfl
  | cons p rest ih =>
    obtain ⟨a, b⟩ := p
    by_cases h : a = j
    · subst h
      show lookupJob ((if a = a then (a, f b) else (a, b)) :: updateJob rest a f) a
          = Option.map f (if a = a then some b else lookupJob rest a)
      rw [if_pos rfl, if_pos rfl]
      show (if a = a then some (f b) else lookupJob (updateJob rest a f) a)
          = Option.map f (some b)
      rw [if_pos rfl]
      rfl
    · show lookupJob ((if a = j then (a, f b) else (a, b)) :: updateJob rest j f) j
          = Option.map f (if a = j then some b else lookupJob rest j)
      rw [if_neg h, if_neg h]
      show (if a = j then some b else lookupJob (updateJob rest j f) j)
          = Option.map f (lookupJob rest j)
      rw [if_neg h]
      exact ih

theorem updateJob_idem (reg : List (String × JobInfo)) (j : String)
    (f : JobInfo → JobInfo) (h : ∀ x, f (f x) = f x) :
    updateJob (updateJob reg j f) j f = updateJob reg j f := by
  unfold updateJob
  rw [List.map_map]
  apply List.map_congr_left
  intro p _
  by_cases hp : p.1 = j
  · show (fun p => if p.1 = j then (p.1, f p.2) else p)
        (if p.1 = j then (p.1, f p.2) else p) = if p.1 = j then (p.1, f p.2) else p
    rw [if_pos hp]
    show (if p.1 = j then (p.1, f (f p.2)) else (p.1, f p.2)) = _
    rw [if_pos hp]
    rw [h]
  · show (fun p => if p.1 = j then (p.1, f p.2) else p)
        (if p.1 = j then (p.1, f p.2) else p) = if p.1 = j then (p.1, f p.2) else p
    rw [if_neg hp]
    show (if p.1 = j then (p.1, f p.2) else p) = p
    rw [if_neg hp]

theorem filter_ne_idem (m : List (String × String)) (j : String) :
    ((m.filter fun p => p.1 ≠ j).filter fun p => p.1 ≠ j) =
      m.filter fun p => p.1 ≠ j := by
  induction m with
  | nil => rfl
  | cons a rest ih =>
    by_cases h : a.1 = j <;> simp [h, ih]

theorem mirrorSet_idem (m : List (String × String)) (j v : String) :
    mirrorSet (mirrorSet m j v) j v = mirrorSet m j v := by
  simp [mirrorSet, filter_ne_idem]

theorem set_job_status_registry (st : SysState) (j s : String) :
    (set_job_status st j s).registry = st.registry := by
  unfold set_job_status; split <;> rfl

theorem set_job_status_redis (st : SysState) (j s : String) :
    (set_job_status st j s).redis_up = st.redis_up := by
  unfold set_job_status; split <;> rfl

theorem set_job_status_idem (st : SysState) (j s : String) :
    set_job_status (set_job_status st j s) j s = set_job_status st j s := by
  unfold set_job_status
  by_cases h : st.redis_up = true <;> simp [h, mirrorSet_idem]

/-! ### Concrete fixtures used by the closed theorems -/

/-- Fixed caller metadata. -/
def mdW : Metadata := ⟨"user1", "chat1", "class1", "subj1"⟩

/-- A registry holding one job that already finished successfully. -/
def stTerminal : SysState :=
  { registry := [("j", { status := .completed,
                         message := "Rendering completed successfully",
                         progress := some 100,
                         output_file := some "http://localhost:9000/sudar-content/user1/class1/subj1/chat1/video_1.mp4",
                         metadata := mdW })]
    redis_up := true
    mirror := [("j", "completed")] }

/-- A registry holding one job that already failed. -/
def stTerminalErr : SysState :=
  { registry := [("j", { status := .error,
                         message := "Manim execution failed",
                         metadata := mdW })]
    redis_up := true
    mirror := [("j", "error")] }

/-- The state the service is in after `submitJob` on `"j"` followed by
`cancel_job` (the queued job is marked cancelled, mirrored to Redis). -/
def stPreCancelled : SysState :=
  { registry := [("j", { status := .cancelled,
                         message := "Job cancelled by user",
                         progress := some 0,
                         created_at := 0,
                         metadata := mdW })]
    redis_up := true
    mirror := [("j", "cancelled")] }

/-- Code whose only `while True:` line sits inside a triple-quoted string
literal (so the stripped text contains neither a deny-listed construct nor
a loop pattern). -/
def c5bad : String := "s = \"\"\"\nwhile True:\n    pass\n\"\"\"\n"

/-! ### One-job state lemmas (the sequential lifecycle of a single job) -/

/-- Canonical one-job system state: one registry entry, Redis up, one
mirror entry. -/
def oneJob (j : String) (i : JobInfo) (s : String) : SysState :=
  { registry := [(j, i)], redis_up := true, mirror := [(j, s)] }

theorem updateJob_one (j : String) (i : JobInfo) (f : JobInfo → JobInfo) :
    updateJob [(j, i)] j f = [(j, f i)] := by
  simp [updateJob]

theorem updateJobNC_one (j : String) (i : JobInfo) (f : JobInfo → JobInfo)
    (h : i.status ≠ .cancelled) :
    updateJobNotCancelled [(j, i)] j f = [(j, f i)] := by
  simp [updateJobNotCancelled, h]

theorem lookupJob_one (j : String) (i : JobInfo) : lookupJob [(j, i)] j = some i := by
  simp [lookupJob]

theorem mirrorGet_one (j v : String) : mirrorGet [(j, v)] j = some v := by
  simp [mirrorGet]

theorem mirrorSet_one (j v w : String) : mirrorSet [(j, v)] j w = [(j, w)] := by
  simp [mirrorSet]

theorem guardNC_one (j : String) (i : JobInfo) (h : i.status ≠ .cancelled) :
    guardNotCancelled [(j, i)] j = true := by
  simp [guardNotCancelled, lookupJob_one, h]

theorem submitJob_init (j : String) (md : Metadata) (now : Nat) :
    submitJob initState j md now =
      oneJob j { status := .queued, message := "Job queued for processing",
                 progress := some 0, created_at := now, metadata := md } "ongoing" := by
  simp [submitJob, initState, set_job_status, mirrorSet, oneJob]

theorem markRunning_one (j : String) (i : JobInfo) (s : String) :
    worker_markRunning (oneJob j i s) j =
      oneJob j { i with status := .running, message := "Starting Manim rendering...",
                        progress := some 10 } s := by
  simp [worker_markRunning, oneJob, updateJob_one]

theorem preLaunch_one (j : String) (i : JobInfo) (s : String)
    (h : i.status ≠ .cancelled) :
    worker_preLaunch (oneJob j i s) j =
      oneJob j { i with progress := some 20, message := "Executing Manim command..." } s := by
  simp [worker_preLaunch, oneJob, updateJobNC_one, h]

theorem launch_one (j : String) (i : JobInfo) (s : String) (pid : Nat) :
    worker_launch (oneJob j i s) j pid = oneJob j { i with process := some pid } s := by
  simp [worker_launch, oneJob, updateJob_one]

theorem cleanup_one (j : String) (i : JobInfo) (s : String) :
    worker_cleanup (oneJob j i s) j = oneJob j { i with process := none } s := by
  simp [worker_cleanup, oneJob, updateJob_one]

theorem upload_none (mUp s3ok : Bool) (ts : Nat) (md : Metadata) (fmt : String)
    (hu : (mUp && s3ok) = false) :
    upload_to_minio mUp s3ok ts md fmt = none := by
  cases mUp <;> cases s3ok <;> simp_all [upload_to_minio]

theorem finish_completed_one (j : String) (i : JobInfo) (s : String) (t : Nat)
    (fmt out err : String) (ts : Nat) (h : i.status ≠ .cancelled) :
    worker_finish (oneJob j i s) j t fmt (.exited 0 out err true true true ts) =
      (oneJob j
        { i with
            status := .completed
            message := "Rendering completed successfully"
            progress := some 100
            output_file := some ("http://localhost:9000/sudar-content/" ++
              i.metadata.user_id ++ "/" ++ i.metadata.classroom_id ++ "/" ++
              i.metadata.subject_id ++ "/" ++ i.metadata.chat_id ++
              "/video_" ++ toString ts ++ "." ++ fmt) }
        "completed", {}) := by
  simp [worker_finish, oneJob, updateJobNC_one, lookupJob_one, guardNC_one,
    upload_to_minio, set_job_status, mirrorSet_one, h]

theorem finish_uploadfail_one (j : String) (i : JobInfo) (s : String) (t : Nat)
    (fmt out err : String) (ts : Nat) (mUp s3ok : Bool) (h : i.status ≠ .cancelled)
    (hu : (mUp && s3ok) = false) :
    worker_finish (oneJob j i s) j t fmt (.exited 0 out err true mUp s3ok ts) =
      (oneJob j
        { i with
            status := .error
            message := "Failed to upload video to storage"
            progress := some 80 }
        "error", {}) := by
  simp [worker_finish, oneJob, updateJobNC_one, lookupJob_one, guardNC_one,
    upload_none _ _ _ _ _ hu, set_job_status, mirrorSet_one, h]

theorem finish_notfound_one (j : String) (i : JobInfo) (s : String) (t : Nat)
    (fmt out err : String) (ts : Nat) (mUp s3ok : Bool) (h : i.status ≠ .cancelled) :
    worker_finish (oneJob j i s) j t fmt (.exited 0 out err false mUp s3ok ts) =
      (oneJob j
        { i with
            status := .error
            message := "Output file not found"
            progress := some 80
            error_details := some ("stdout: " ++ out ++ "\nstderr: " ++ err ++
              "\nFiles created: []") }
        "error", {}) := by
  simp [worker_finish, oneJob, updateJobNC_one, lookupJob_one,
    set_job_status, mirrorSet_one, h]

theorem finish_nonzero_one (j : String) (i : JobInfo) (s : String) (t : Nat)
    (fmt out err : String) (rc : Int) (ts : Nat) (mUp s3ok found : Bool)
    (h : i.status ≠ .cancelled) (hrc : rc ≠ 0) :
    worker_finish (oneJob j i s) j t fmt (.exited rc out err found mUp s3ok ts) =
      (oneJob j
        { i with
            status := .error
            message := "Manim execution failed"
            progress := some 80
            error_details := some ("Return code: " ++ toString rc ++
              "\nstdout: " ++ out ++ "\nstderr: " ++ err) }
        "error", {}) := by
  simp [worker_finish, oneJob, updateJobNC_one, lookupJob_one,
    set_job_status, mirrorSet_one, h, hrc]

theorem finish_timeout_one (j : String) (i : JobInfo) (s : String) (t : Nat)
    (fmt : String) (d : Bool) (h : i.status ≠ .cancelled) :
    worker_finish (oneJob j i s) j t fmt (.timedOut d) =
      (oneJob j
        { i with
            status := .timeout
            message := "Process timed out after " ++ toString t ++ " seconds"
            error_details := some "Execution exceeded maximum allowed time" }
        "timeout",
       { signals := if d then [.sigterm] else [.sigterm, .sigkill]
         pgroupAlive := false }) := by
  simp [worker_finish, oneJob, updateJobNC_one, set_job_status, mirrorSet_one, h]

theorem finish_raised_one (j : String) (i : JobInfo) (s : String) (t : Nat)
    (fmt m : String) (h : i.status ≠ .cancelled) :
    worker_finish (oneJob j i s) j t fmt (.raised m) =
      (oneJob j
        { i with
            status := .error
            message := "Internal error occurred"
            error_details := some m }
        "error", {}) := by
  simp [worker_finish, oneJob, updateJobNC_one, set_job_status, mirrorSet_one, h]

/-- The registry entry a job submitted on a fresh service ends up with
after a full worker run with outcome `o` (read off the branches of
`worker_finish` followed by `worker_cleanup`). -/
def finalEntry (md : Metadata) (now t : Nat) (fmt : String) : ProcOutcome → JobInfo
  | .exited rc out err found mUp s3ok ts =>
    if rc = 0 then
      if found then
        if mUp && s3ok then
          ⟨.completed, "Rendering completed successfully", some 100, now,
           some ("http://localhost:9000/sudar-content/" ++ md.user_id ++ "/" ++
             md.classroom_id ++ "/" ++ md.subject_id ++ "/" ++ md.chat_id ++
             "/video_" ++ toString ts ++ "." ++ fmt),
           none, none, md⟩
        else ⟨.error, "Failed to upload video to storage", some 80, now, none, none, none, md⟩
      else
        ⟨.error, "Output file not found", some 80, now, none,
         some ("stdout: " ++ out ++ "\nstderr: " ++ err ++ "\nFiles created: []"), none, md⟩
    else
      ⟨.error, "Manim execution failed", some 80, now, none,
       some ("Return code: " ++ toString rc ++ "\nstdout: " ++ out ++ "\nstderr: " ++ err),
       none, md⟩
  | .timedOut _ =>
    ⟨.timeout, "Process timed out after " ++ toString t ++ " seconds", some 20, now, none,
     some "Execution exceeded maximum allowed time", none, md⟩
  | .raised m =>
    ⟨.error, "Internal error occurred", some 20, now, none, some m, none, md⟩

/-- The kill log a full worker run produces. -/
def runKlog : ProcOutcome → KillLog
  | .timedOut d => { signals := if d then [.sigterm] else [.sigterm, .sigkill]
                     pgroupAlive := false }
  | _ => {}

theorem launch_state_eq (j : String) (md : Metadata) (now pid : Nat) :
    worker_launch (worker_preLaunch (worker_markRunning (submitJob initState j md now) j) j)
        j pid =
      oneJob j ⟨.running, "Executing Manim command...", some 20, now, none, none,
        some pid, md⟩ "ongoing" := by
  simp [submitJob_init, markRunning_one, preLaunch_one, launch_one]

/-- End-to-end equation for the sequential lifecycle of one submitted job:
submission followed by a full worker run with environment outcome `o`. -/
theorem run_submit_eq (j : String) (md : Metadata) (now pid t : Nat) (fmt : String)
    (o : ProcOutcome) :
    run_manim_process (submitJob initState j md now) j pid t fmt o =
      { state := oneJob j (finalEntry md now t fmt o) (expectedTerminal o).toRedis
        launched := true
        klog := runKlog o } := by
  cases o with
  | exited rc out err found mUp s3ok ts =>
    by_cases hrc : rc = 0
    · subst hrc
      cases found
      · simp [run_manim_process, submitJob_init, markRunning_one, preLaunch_one,
          launch_one, finish_notfound_one, cleanup_one, finalEntry, runKlog,
          expectedTerminal, Status.toRedis]
      · cases mUp <;> cases s3ok <;>
          simp [run_manim_process, submitJob_init, markRunning_one, preLaunch_one,
            launch_one, finish_completed_one, finish_uploadfail_one, cleanup_one,
            finalEntry, runKlog, expectedTerminal, Status.toRedis]
    · simp [run_manim_process, submitJob_init, markRunning_one, preLaunch_one,
        launch_one, finish_nonzero_one, cleanup_one, finalEntry, runKlog,
        expectedTerminal, Status.toRedis, hrc]
  | timedOut d =>
    simp [run_manim_process, submitJob_init, markRunning_one, preLaunch_one,
      launch_one, finish_timeout_one, cleanup_one, finalEntry, runKlog,
      expectedTerminal, Status.toRedis]
  | raised m =>
    simp [run_manim_process, submitJob_init, markRunning_one, preLaunch_one,
      launch_one, finish_raised_one, cleanup_one, finalEntry, runKlog,
      expectedTerminal, Status.toRedis]

theorem finalEntry_status (md : Metadata) (now t : Nat) (fmt : String) (o : ProcOutcome) :
    (finalEntry md now t fmt o).status = expectedTerminal o := by
  cases o with
  | exited rc out err found mUp s3ok ts =>
    by_cases hrc : rc = 0 <;> cases found <;> cases mUp <;> cases s3ok <;>
      simp [finalEntry, expectedTerminal, hrc]
  | timedOut d => rfl
  | raised m => rfl

theorem finalEntry_process (md : Metadata) (now t : Nat) (fmt : String) (o : ProcOutcome) :
    (finalEntry md now t fmt o).process = none := by
  cases o with
  | exited rc out err found mUp s3ok ts =>
    by_cases hrc : rc = 0 <;> cases found <;> cases mUp <;> cases s3ok <;>
      simp [finalEntry, hrc]
  | timedOut d => rfl
  | raised m => rfl

theorem expectedTerminal_isTerminal (o : ProcOutcome) :
    (expectedTerminal o).isTerminal = true := by
  cases o with
  | exited rc out err found mUp s3ok ts =>
    simp only [expectedTerminal]
    split <;> rfl
  | timedOut d => rfl
  | raised m => rfl

/-- Registry state with no local entry but a live mirror entry for `"j"`. -/
def stMirrorOnly : SysState :=
  { registry := [], redis_up := true, mirror := [("j", "ongoing")] }

/-! ### Claim theorems -/

/-- C1: the claimed status state machine is violated by the code.
`cancel_job` performs no already-terminal check: invoked on a job whose
status is the terminal `completed`, it succeeds and rewrites the status to
`cancelled` — a transition out of a terminal status, so a field other than
eviction bookkeeping changes after the job was terminal. -/
theorem cancel_job_escapes_terminal_status :
    Status.completed.isTerminal = true
    ∧ cancel_job stTerminal "j" true =
        .ok (cancelledState stTerminal "j", "Job cancelled successfully")
    ∧ (lookupJob (cancelledState stTerminal "j").registry "j").map JobInfo.status
        = some .cancelled := by
  decide

/-- C2: the claim fails on the code.  For a job cancelled while still
queued, the worker does not observe the cancellation: its first status
write has no cancelled-guard, so it overwrites `cancelled` with `running`,
it reaches `subprocess.Popen` unconditionally (`launched = true`), and on
a successful render the pre-cancelled job even finishes `completed` with
the mirror rewritten from `"cancelled"` to `"completed"`. -/
theorem worker_runs_despite_precancellation :
    cancel_job (submitJob initState "j" mdW 0) "j" true
      = .ok (stPreCancelled, "Job cancelled successfully")
    ∧ (lookupJob stPreCancelled.registry "j").map JobInfo.status = some .cancelled
    ∧ (run_manim_process stPreCancelled "j" 7 300 "mp4"
        (.exited 0 "" "" true true true 1)).launched = true
    ∧ (lookupJob (worker_markRunning stPreCancelled "j").registry "j").map JobInfo.status
        = some .running
    ∧ (lookupJob (run_manim_process stPreCancelled "j" 7 300 "mp4"
        (.exited 0 "" "" true true true 1)).state.registry "j").map JobInfo.status
        = some .completed
    ∧ mirrorGet (run_manim_process stPreCancelled "j" 7 300 "mp4"
        (.exited 0 "" "" true true true 1)).state.mirror "j" = some "completed" := by
  decide

/-- C3 counterexample: on job creation the registry records `queued` but
the mirror write stores the literal `"ongoing"`, which is not the name of
the recorded status — the mirror entry contradicts the registry from the
very first transition. -/
theorem submit_mirrors_ongoing_not_queued :
    (lookupJob (submitJob initState "j" mdW 0).registry "j").map JobInfo.status
      = some .queued
    ∧ mirrorGet (submitJob initState "j" mdW 0).mirror "j" = some "ongoing"
    ∧ Status.queued.toRedis ≠ "ongoing" := by
  decide

/-- C3 amended: creation writes the fixed value `"ongoing"` (not the
registry's `queued`) to the mirror, which names no status at all; the
`queued → running` transition performs no mirror write, so the mirror
still reads `"ongoing"` — disagreeing with the registry — right after the
`running` write and still at the `Popen` point; every terminal transition
of an uncancelled job, however, issues a mirror write carrying the
matching status value, so at the end of a worker run whose best-effort
mirror writes succeed (the source swallows `RedisError` on writes, which
would leave the stale previous value) the mirror equals the registry
status. -/
theorem mirror_write_characterization (j : String) (md : Metadata) (now pid t : Nat)
    (fmt : String) (o : ProcOutcome) :
    (mirrorGet (submitJob initState j md now).mirror j = some "ongoing"
      ∧ (lookupJob (submitJob initState j md now).registry j).map JobInfo.status
          = some .queued
      ∧ Status.queued.toRedis ≠ "ongoing")
    ∧ ((lookupJob (worker_markRunning (submitJob initState j md now) j).registry j).map
          JobInfo.status = some .running
      ∧ mirrorGet (worker_markRunning (submitJob initState j md now) j).mirror j
          = some "ongoing"
      ∧ Status.running.toRedis ≠ "ongoing")
    ∧ ((lookupJob (worker_launch (worker_preLaunch (worker_markRunning
          (submitJob initState j md now) j) j) j pid).registry j).map JobInfo.status
          = some .running
      ∧ mirrorGet (worker_launch (worker_preLaunch (worker_markRunning
          (submitJob initState j md now) j) j) j pid).mirror j = some "ongoing")
    ∧ (expectedTerminal o).isTerminal = true
    ∧ (lookupJob (run_manim_process (submitJob initState j md now) j pid t fmt
        o).state.registry j).map JobInfo.status = some (expectedTerminal o)
    ∧ mirrorGet (run_manim_process (submitJob initState j md now) j pid t fmt
        o).state.mirror j = some (expectedTerminal o).toRedis := by
  refine ⟨⟨?_, ?_, by decide⟩, ⟨?_, ?_, by decide⟩, ⟨?_, ?_⟩,
    expectedTerminal_isTerminal o, ?_, ?_⟩
  · rw [submitJob_init]; simp [oneJob, mirrorGet_one]
  · rw [submitJob_init]; simp [oneJob, lookupJob_one]
  · rw [submitJob_init, markRunning_one]; simp [oneJob, lookupJob_one]
  · rw [submitJob_init, markRunning_one]; simp [oneJob, mirrorGet_one]
  · rw [launch_state_eq]; simp [oneJob, lookupJob_one]
  · rw [launch_state_eq]; simp [oneJob, mirrorGet_one]
  · rw [run_submit_eq]; simp [oneJob, lookupJob_one, finalEntry_status]
  · rw [run_submit_eq]; simp [oneJob, mirrorGet_one]

/-- C4: a job whose subprocess exceeds the wall-clock timeout ends in the
terminal status `timeout` (a distinct value from `error`); the handler
sends SIGTERM to the process group first and SIGKILL only if the group
survives the grace period, and the group is not alive afterwards; the
mirror records `"timeout"`. -/
theorem timeout_reaches_timeout_and_kills_process_group (j : String) (md : Metadata)
    (now pid t : Nat) (fmt : String) (d : Bool) :
    (lookupJob (run_manim_process (submitJob initState j md now) j pid t fmt
        (.timedOut d)).state.registry j).map JobInfo.status = some .timeout
    ∧ Status.timeout ≠ Status.error
    ∧ (run_manim_process (submitJob initState j md now) j pid t fmt
        (.timedOut d)).klog.signals = .sigterm :: (if d then [] else [.sigkill])
    ∧ (run_manim_process (submitJob initState j md now) j pid t fmt
        (.timedOut d)).klog.pgroupAlive = false
    ∧ mirrorGet (run_manim_process (submitJob initState j md now) j pid t fmt
        (.timedOut d)).state.mirror j = some "timeout" := by
  rw [run_submit_eq]
  refine ⟨?_, by decide, ?_, ?_, ?_⟩
  · simp [oneJob, lookupJob_one, finalEntry]
  · cases d <;> simp [runKlog]
  · simp [runKlog]
  · simp [oneJob, mirrorGet_one, expectedTerminal, Status.toRedis]

/-- C5 counterexample: a program whose only `while True:` line sits inside
a string literal is rejected by the validator with the infinite-loop
message, even though the stripped text contains neither a deny-listed
construct nor a loop pattern — because the infinite-loop scan reads the
raw code, not the stripped code. -/
theorem infinite_loop_scan_reads_raw_code :
    validate_manim_code c5bad = (false, "Potential infinite loop detected at line 2")
    ∧ findInfLoop (strip_strings_and_comments c5bad.data) = none
    ∧ findDangerous (strip_strings_and_comments c5bad.data) = none := by
  decide

/-- C5 amended: the deny-list scan runs on the stripped text (so
deny-listed tokens inside string literals or comments do not trigger it,
as the accepted concrete snippet shows), but the infinite-loop scan runs
on the raw code; a snippet is accepted exactly when the stripped text has
no deny-listed construct and the raw text has no unbroken
`while True:`/`while 1:` line. -/
theorem validator_accepts_iff_scans_clear :
    (∀ code : String,
      validate_manim_code code = (true, "Code validation passed") ↔
        (findDangerous (strip_strings_and_comments code.data) = none
          ∧ findInfLoop code.data = none))
    ∧ validate_manim_code "x = \"os.system eval\"  # exec subprocess\nfrom manim import *\n"
        = (true, "Code validation passed") := by
  constructor
  · intro code
    simp only [validate_manim_code]
    split
    · rename_i label heq
      simp [heq]
    · rename_i heq
      split
      · rename_i n heq2
        simp [heq, heq2]
      · rename_i heq2
        simp [heq, heq2]
  · decide

/-- C5 witness: the characterization applied at a concrete clean snippet. -/
theorem validator_accepts_iff_scans_clear_witness :
    validate_manim_code "y = 1\n" = (true, "Code validation passed") :=
  (validator_accepts_iff_scans_clear.1 "y = 1\n").mpr (by decide)

/-- C6 counterexample: `cancel_job` invoked on a job already in the
terminal status `error` does not return an already-terminal error — it
returns plain success and marks the job cancelled. -/
theorem cancel_on_terminal_job_returns_success :
    Status.error.isTerminal = true
    ∧ cancel_job stTerminalErr "j" true
        = .ok (cancelledState stTerminalErr "j", "Job cancelled successfully")
    ∧ (lookupJob (cancelledState stTerminalErr "j").registry "j").map JobInfo.status
        = some .cancelled := by
  decide

/-- C6 amended: `cancel_job` returns not-found for an unknown job id;
for any known job (unless it is running with a live handle and the kill
fails) it returns success and sets status `cancelled` regardless of the
current status — no already-terminal error exists — and a second cancel
after the first is a complete no-op: it returns the very same state. -/
theorem cancel_contract_amended (st : SysState) (j : String) (k : Bool) :
    (lookupJob st.registry j = none → cancel_job st j k = .err 404 "Job not found")
    ∧ ∀ i, lookupJob st.registry j = some i →
        (¬(i.status = .running ∧ i.process.isSome) ∨ k = true) →
        cancel_job st j k = .ok (cancelledState st j, "Job cancelled successfully")
        ∧ (lookupJob (cancelledState st j).registry j).map JobInfo.status = some .cancelled
        ∧ cancel_job (cancelledState st j) j k
            = .ok (cancelledState st j, "Job cancelled successfully") := by
  constructor
  · intro h
    simp [cancel_job, h]
  · intro i hi hki
    have hreg : (cancelledState st j).registry =
        updateJob st.registry j (fun i =>
          { i with status := .cancelled, message := "Job cancelled by user" }) :=
      set_job_status_registry _ _ _
    have hlook : lookupJob (cancelledState st j).registry j =
        some { i with status := .cancelled, message := "Job cancelled by user" } := by
      rw [hreg, lookupJob_updateJob, hi]
      rfl
    refine ⟨?_, ?_, ?_⟩
    · by_cases hc : i.status = .running ∧ i.process.isSome
      · have hk : k = true := by
          rcases hki with h | h
          · exact absurd hc h
          · exact h
        subst hk
        simp [cancel_job, hi, hc, cancelledState]
      · simp [cancel_job, hi, hc, cancelledState]
    · rw [hlook]
      rfl
    · have hupd : updateJob (cancelledState st j).registry j
          (fun i => { i with status := .cancelled, message := "Job cancelled by user" })
          = (cancelledState st j).registry := by
        rw [hreg]
        exact updateJob_idem _ _ _ (fun x => rfl)
      simp only [cancel_job, hlook]
      rw [if_neg (show ¬(Status.cancelled = Status.running ∧ i.process.isSome = true) by simp)]
      rw [hupd]
      show Resp.ok (set_job_status (cancelledState st j) j "cancelled",
        "Job cancelled successfully") = _
      rw [show set_job_status (cancelledState st j) j "cancelled" = cancelledState st j from by
        unfold cancelledState
        exact set_job_status_idem _ _ _]

/-- C6 witness: the amended contract applied to a concrete job already in
terminal status `error`, including the no-op second cancel. -/
theorem cancel_contract_amended_witness :
    cancel_job stTerminalErr "j" true
        = .ok (cancelledState stTerminalErr "j", "Job cancelled successfully")
    ∧ (lookupJob (cancelledState stTerminalErr "j").registry "j").map JobInfo.status
        = some .cancelled
    ∧ cancel_job (cancelledState stTerminalErr "j") "j" true
        = .ok (cancelledState stTerminalErr "j", "Job cancelled successfully") :=
  (cancel_contract_amended stTerminalErr "j" true).2
    { status := .error, message := "Manim execution failed", metadata := mdW }
    rfl (Or.inl (by decide))

/-- C7 counterexample: when the mirror reports the terminal status
`"error"` the stream loop does not stop — it emits a keep-alive and keeps
polling (likewise for `"timeout"` and `"cancelled"`). -/
theorem stream_keeps_polling_after_error_status :
    stream_step (some "error") = { event := .keepAlive, stop := false, sleepSeconds := 1 }
    ∧ Status.error.isTerminal = true
    ∧ Status.error.toRedis = "error"
    ∧ (stream_step (some "timeout")).stop = false
    ∧ (stream_step (some "cancelled")).stop = false := by
  decide

/-- C7 amended: the stream loop stops exactly when the mirror read returns
nothing (job unknown or expired) or the literal status `"completed"`; on
any other observed value it emits a keep-alive and sleeps one second
before the next poll. -/
theorem stream_step_termination_condition :
    ∀ s : Option String,
      ((stream_step s).stop = true ↔ s = none ∨ s = some "completed")
      ∧ ((stream_step s).stop = false →
          (stream_step s).event = .keepAlive ∧ (stream_step s).sleepSeconds = 1) := by
  intro s
  cases s with
  | none => simp [stream_step]
  | some v =>
    by_cases h : v = "completed" <;> simp [stream_step, h]

/-- C7 witness: the non-terminating branch applied at the concrete mirror
value `"ongoing"`. -/
theorem stream_step_termination_condition_witness :
    (stream_step (some "ongoing")).event = .keepAlive
    ∧ (stream_step (some "ongoing")).sleepSeconds = 1 :=
  (stream_step_termination_condition (some "ongoing")).2 (by decide)

/-- C8: a job whose render exits 0 with an output file but whose upload
fails ends in terminal status `error` with the publish-specific message
"Failed to upload video to storage", distinct from the render-failure and
missing-output messages, and the mirror records `"error"`. -/
theorem publish_failure_reported_distinctly (j : String) (md : Metadata)
    (now pid t : Nat) (fmt out err : String) (ts : Nat) (mUp s3ok : Bool)
    (hu : (mUp && s3ok) = false) :
    (lookupJob (run_manim_process (submitJob initState j md now) j pid t fmt
        (.exited 0 out err true mUp s3ok ts)).state.registry j).map JobInfo.status
      = some .error
    ∧ (lookupJob (run_manim_process (submitJob initState j md now) j pid t fmt
        (.exited 0 out err true mUp s3ok ts)).state.registry j).map JobInfo.message
      = some "Failed to upload video to storage"
    ∧ "Failed to upload video to storage" ≠ "Manim execution failed"
    ∧ "Failed to upload video to storage" ≠ "Output file not found"
    ∧ mirrorGet (run_manim_process (submitJob initState j md now) j pid t fmt
        (.exited 0 out err true mUp s3ok ts)).state.mirror j = some "error" := by
  rw [run_submit_eq]
  cases mUp <;> cases s3ok
  · refine ⟨?_, ?_, by decide, by decide, ?_⟩ <;>
      simp [oneJob, lookupJob_one, mirrorGet_one, finalEntry, expectedTerminal,
        Status.toRedis]
  · refine ⟨?_, ?_, by decide, by decide, ?_⟩ <;>
      simp [oneJob, lookupJob_one, mirrorGet_one, finalEntry, expectedTerminal,
        Status.toRedis]
  · refine ⟨?_, ?_, by decide, by decide, ?_⟩ <;>
      simp [oneJob, lookupJob_one, mirrorGet_one, finalEntry, expectedTerminal,
        Status.toRedis]
  · simp at hu

/-- C8 witness: the publish-failure property at a concrete job whose
upload oracle reports failure. -/
theorem publish_failure_reported_distinctly_witness :
    (lookupJob (run_manim_process (submitJob initState "j" mdW 0) "j" 7 300 "mp4"
        (.exited 0 "" "" true false false 1)).state.registry "j").map JobInfo.status
      = some .error
    ∧ (lookupJob (run_manim_process (submitJob initState "j" mdW 0) "j" 7 300 "mp4"
        (.exited 0 "" "" true false false 1)).state.registry "j").map JobInfo.message
      = some "Failed to upload video to storage"
    ∧ "Failed to upload video to storage" ≠ "Manim execution failed"
    ∧ "Failed to upload video to storage" ≠ "Output file not found"
    ∧ mirrorGet (run_manim_process (submitJob initState "j" mdW 0) "j" 7 300 "mp4"
        (.exited 0 "" "" true false false 1)).state.mirror "j" = some "error" :=
  publish_failure_reported_distinctly "j" mdW 0 7 300 "mp4" "" "" 1 false false rfl

/-- C9 counterexample: the claimed equivalence fails in both directions on
the sequential trace of a successful job: right after the first status
write the job is `running` with no process handle (the handle is stored
only after `Popen`), and right after the terminal `completed` write —
before the `finally` block runs — the handle is still present. -/
theorem process_handle_not_iff_running :
    ((lookupJob (worker_markRunning (submitJob initState "j" mdW 0) "j").registry "j").map
        JobInfo.status = some .running
      ∧ (lookupJob (worker_markRunning (submitJob initState "j" mdW 0) "j").registry "j").map
        JobInfo.process = some none)
    ∧ ((lookupJob (worker_finish (worker_launch (worker_preLaunch
          (worker_markRunning (submitJob initState "j" mdW 0) "j") "j") "j" 7) "j" 300 "mp4"
          (.exited 0 "" "" true true true 1)).1.registry "j").map JobInfo.status
        = some .completed
      ∧ (lookupJob (worker_finish (worker_launch (worker_preLaunch
          (worker_markRunning (submitJob initState "j" mdW 0) "j") "j") "j" 7) "j" 300 "mp4"
          (.exited 0 "" "" true true true 1)).1.registry "j").map JobInfo.process
        = some (some 7)) := by
  decide

/-- C9 amended: the process handle is present exactly between the `Popen`
call and the guaranteed cleanup (so `running` precedes its presence, and a
terminal status briefly coexists with it until the `finally` block); after
the full run the handle is cleared, and the mirror only ever holds a
status string — never the handle. -/
theorem process_handle_lifecycle_amended (j : String) (md : Metadata)
    (now pid t : Nat) (fmt : String) (o : ProcOutcome) :
    ((lookupJob (worker_launch (worker_preLaunch (worker_markRunning
          (submitJob initState j md now) j) j) j pid).registry j).map JobInfo.process
        = some (some pid)
      ∧ (lookupJob (worker_launch (worker_preLaunch (worker_markRunning
          (submitJob initState j md now) j) j) j pid).registry j).map JobInfo.status
        = some .running)
    ∧ (lookupJob (worker_markRunning (submitJob initState j md now) j).registry j).map
        JobInfo.process = some none
    ∧ (lookupJob (run_manim_process (submitJob initState j md now) j pid t fmt
        o).state.registry j).map JobInfo.process = some none
    ∧ (run_manim_process (submitJob initState j md now) j pid t fmt o).state.mirror
        = [(j, (expectedTerminal o).toRedis)] := by
  refine ⟨⟨?_, ?_⟩, ?_, ?_, ?_⟩
  · rw [launch_state_eq]; simp [oneJob, lookupJob_one]
  · rw [launch_state_eq]; simp [oneJob, lookupJob_one]
  · rw [submitJob_init, markRunning_one]; simp [oneJob, lookupJob_one]
  · rw [run_submit_eq]; simp [oneJob, lookupJob_one, finalEntry_process]
  · rw [run_submit_eq]; simp [oneJob]

/-- C10 counterexample: with a job absent from the registry but present in
the mirror, a failing mirror read is swallowed and reported as 404 "Job
not found", although the mirror was not reachable and does hold an entry
(a successful read of the same state returns it). -/
theorem mirror_read_failure_reported_as_not_found :
    get_status stMirrorOnly "j" true = .err 404 "Job not found"
    ∧ mirrorGet stMirrorOnly.mirror "j" = some "ongoing"
    ∧ get_status stMirrorOnly "j" false = .ok (.coarse "j" "ongoing") := by
  decide

/-- C10 amended: for a job id absent from the registry, the query returns
503 exactly when the mirror client was never initialized; when the client
exists, 404 is returned whenever the read yields nothing — both when the
mirror holds no entry and when the read fails (the error is swallowed and
mapped to not-found). -/
theorem get_status_fallback_behavior (st : SysState) (j : String) (rf : Bool)
    (h : lookupJob st.registry j = none) :
    (st.redis_up = false → get_status st j rf = .err 503 "Status store unavailable")
    ∧ (st.redis_up = true →
        (get_status st j rf = .err 404 "Job not found" ↔
          (rf = true ∨ mirrorGet st.mirror j = none))) := by
  constructor
  · intro hr
    simp [get_status, h, hr]
  · intro hr
    cases rf
    · cases hm : mirrorGet st.mirror j <;> simp [get_status, h, hr, hm]
    · simp [get_status, h, hr]

/-- C10 witness: the 404 branch applied at a concrete empty-mirror state
with a successful read. -/
theorem get_status_fallback_behavior_witness :
    get_status { registry := [], redis_up := true, mirror := [] } "j" false
      = .err 404 "Job not found" :=
  ((get_status_fallback_behavior { registry := [], redis_up := true, mirror := [] }
    "j" false rfl).2 rfl).mpr (Or.inr rfl)

end ManimRenderer
